import Mathlib

/-!
Shallow embedding of the order-lifecycle core of the e-commerce repository:
the admin order service (status transitions, status-history audit trail,
inventory restoration, shipping attachment, bulk operations), the admin
Orders page's own status-update handler, the checkout order creation, and
the account page's missing-total reconstruction.

Modelling conventions:
  * Firestore documents become Lean structures; a partial `update` merge
    becomes a structure update that touches exactly the written fields.
  * A document collection becomes a function `String → Option Doc`; a
    committed write overrides the function at one key.
  * A Firestore write batch is an ordered list of (key, payload) entries,
    built against the pre-batch store (reads inside the loop do not see
    buffered writes) and committed left to right, so a later entry for the
    same key overrides an earlier one.
  * Timestamps (both `serverTimestamp()` and `new Date()`) are abstract
    instants modelled as `Nat`, threaded in as a `now` parameter.
  * Money amounts are `Rat` (JS numbers used only with +, -, *).
  * A JS falsy test `!x` / `x || d` on a string field treats `""` like an
    absent value, and on a numeric field treats `0` like an absent value;
    string fields written by the code are plain `String` with `""` for
    absent, numeric and object fields are `Option`.
-/

/-- JS `a || b` on string values: `""` is falsy. -/
def jsOr (a b : String) : String := if a = "" then b else a

/-- JS falsy test on an optional numeric field: absent or `0`. -/
def jsFalsyNum (x : Option Rat) : Bool := x.getD 0 = 0

/-- One line item of an order: an immutable snapshot taken at checkout. -/
structure LineItem where
  productId : String
  name : String := ""
  price : Rat := 0
  quantity : Nat := 0
  image : String := ""
  deriving DecidableEq, Repr

/-- A product catalog document; only the fields the order core touches. -/
structure Product where
  stock : Option Nat := none
  lastRestored : Option Nat := none
  deriving DecidableEq, Repr

/-- One entry of an order's status-history audit log. -/
structure StatusHistoryEntry where
  status : String
  timestamp : Nat
  note : String
  updatedBy : Option String := none
  previousStatus : Option String := none
  adminNotes : Option String := none
  metadata : List (String × String) := []
  deriving DecidableEq, Repr

/-- A shipping address snapshot stored on the order. -/
structure Address where
  name : String := ""
  street : String := ""
  city : String := ""
  state : String := ""
  zip : String := ""
  country : String := ""
  deriving DecidableEq, Repr

/-- The order's `shipping` field (`shipping.address.country`, `shipping.cost`). -/
structure ShippingField where
  address : Option Address := none
  cost : Option Rat := none
  deriving DecidableEq, Repr

/-- The tracking descriptor attached to an order; every field optional since
the Packed auto-assignment writes only `carrier` into it. -/
structure Tracking where
  code : Option String := none
  carrier : Option String := none
  carrierCode : Option String := none
  url : Option String := none
  estimatedDelivery : Option Nat := none
  shippedDate : Option Nat := none
  service : Option String := none
  weight : Option Rat := none
  dimensions : Option String := none
  cost : Option Rat := none
  notes : Option String := none
  updatedBy : Option String := none
  updatedAt : Option Nat := none
  deriving DecidableEq, Repr

/-- An order document, with every field any of the embedded operations reads
or writes. Fields a fresh document does not carry default to `none` / `""`. -/
structure Order where
  userId : String := ""
  userEmail : String := ""
  userName : String := ""
  userPhone : String := ""
  orderDate : Option Nat := none
  createdAt : Option Nat := none
  items : List LineItem := []
  paymentMethod : String := ""
  subtotal : Option Rat := none
  tax : Option Rat := none
  discount : Option Rat := none
  totalAmount : Option Rat := none
  total : Option Rat := none
  importDuty : Option Rat := none
  status : String := ""
  statusHistory : List StatusHistoryEntry := []
  shippingAddress : Option Address := none
  shipping : Option ShippingField := none
  priority : String := ""
  tags : List String := []
  adminNotes : String := ""
  tracking : Option Tracking := none
  updatedAt : Option Nat := none
  lastUpdatedBy : Option String := none
  approvedAt : Option Nat := none
  approvedBy : Option String := none
  packedAt : Option Nat := none
  packedBy : Option String := none
  packingNotes : Option String := none
  shippedAt : Option Nat := none
  shippedBy : Option String := none
  deliveredAt : Option Nat := none
  deliveryConfirmation : Option String := none
  declinedAt : Option Nat := none
  declinedBy : Option String := none
  declineReason : Option String := none
  cancelledAt : Option Nat := none
  cancelledBy : Option String := none
  cancellationReason : Option String := none
  refundedAt : Option Nat := none
  refundedBy : Option String := none
  refundAmount : Option Rat := none
  refundReason : Option String := none
  refundMethod : Option String := none
  deriving DecidableEq, Repr

/-- The `orders` collection: order id to document. -/
def OrderStore : Type := String → Option Order

/-- The `products` collection: product id to document. -/
def ProductStore : Type := String → Option Product

/-- Committed single-document write: override one key of an order store. -/
def OrderStore.set (s : OrderStore) (k : String) (o : Order) : OrderStore :=
  fun k' => if k' = k then some o else s k'

/-- Committed update of one existing product document. -/
def ProductStore.update (s : ProductStore) (k : String) (f : Product → Product) :
    ProductStore :=
  fun k' => if k' = k then (s k').map f else s k'

/-- A product store with no documents. -/
def ProductStore.empty : ProductStore := fun _ => none

namespace ORDER_STATUSES

def PLACED : String := "Placed"

def APPROVED : String := "Approved"

def PACKED : String := "Packed"

def SHIPPED : String := "Shipped"

def DELIVERED : String := "Delivered"

def DECLINED : String := "Declined"

def CANCELLED : String := "Cancelled"

def REFUNDED : String := "Refunded"

/-- `Object.values(ORDER_STATUSES)` in declaration order. -/
def values : List String :=
  [PLACED, APPROVED, PACKED, SHIPPED, DELIVERED, DECLINED, CANCELLED, REFUNDED]

end ORDER_STATUSES

namespace ORDER_PRIORITIES

def LOW : String := "low"

def NORMAL : String := "normal"

def HIGH : String := "high"

def URGENT : String := "urgent"

def values : List String := [LOW, NORMAL, HIGH, URGENT]

end ORDER_PRIORITIES

/-- A shipping carrier configuration entry. -/
structure CarrierConfig where
  name : String
  code : String
  trackingUrl : String
  standardDays : Nat
  expressDays : Nat
  deriving DecidableEq, Repr

namespace SHIPPING_CARRIERS

def INDIA_POST : CarrierConfig :=
  { name := "IndiaPost", code := "INDIAPOST"
    trackingUrl := "https://www.indiapost.gov.in/_layouts/15/dop.portal.tracking/trackconsignment.aspx"
    standardDays := 7, expressDays := 3 }

def DHL : CarrierConfig :=
  { name := "DHL", code := "DHL"
    trackingUrl := "https://www.dhl.com/in-en/home/tracking.html"
    standardDays := 3, expressDays := 1 }

def FEDEX : CarrierConfig :=
  { name := "FedEx", code := "FEDEX"
    trackingUrl := "https://www.fedex.com/en-in/tracking.html"
    standardDays := 3, expressDays := 1 }

def BLUEDART : CarrierConfig :=
  { name := "BlueDart", code := "BLUEDART"
    trackingUrl := "https://www.bluedart.com/web/guest/trackdartresult"
    standardDays := 2, expressDays := 1 }

/-- `Object.values(SHIPPING_CARRIERS)` in declaration order. -/
def values : List CarrierConfig := [INDIA_POST, DHL, FEDEX, BLUEDART]

end SHIPPING_CARRIERS

/-- The `validTransitions` table of `AdminOrderService.updateOrderStatus`:
current status to the list of allowed next statuses. Statuses outside the
enumeration are not keys (the JS lookup yields `undefined`). -/
def validTransitions (s : String) : Option (List String) :=
  if s = ORDER_STATUSES.PLACED then
    some [ORDER_STATUSES.APPROVED, ORDER_STATUSES.DECLINED, ORDER_STATUSES.CANCELLED]
  else if s = ORDER_STATUSES.APPROVED then
    some [ORDER_STATUSES.PACKED, ORDER_STATUSES.CANCELLED]
  else if s = ORDER_STATUSES.PACKED then
    some [ORDER_STATUSES.SHIPPED, ORDER_STATUSES.CANCELLED]
  else if s = ORDER_STATUSES.SHIPPED then some [ORDER_STATUSES.DELIVERED]
  else if s = ORDER_STATUSES.DELIVERED then some [ORDER_STATUSES.REFUNDED]
  else if s = ORDER_STATUSES.DECLINED then some []
  else if s = ORDER_STATUSES.CANCELLED then some [ORDER_STATUSES.REFUNDED]
  else if s = ORDER_STATUSES.REFUNDED then some []
  else none

/-- The `updateInfo` argument of `AdminOrderService.updateOrderStatus`. -/
structure UpdateInfo where
  note : String := ""
  adminNotes : String := ""
  reason : String := ""
  ipAddress : String := ""
  userAgent : String := ""
  metadata : List (String × String) := []
  priority : String := ""
  packingNotes : String := ""
  tracking : Option Tracking := none
  deliveryConfirmation : String := ""
  refundAmount : Option Rat := none
  refundMethod : String := ""
  deriving DecidableEq, Repr

/-- JS object spread `{...a, ...b}` on two tracking descriptors: a field
present on `b` overrides the one from `a`. -/
def Tracking.spread (a b : Tracking) : Tracking where
  code := b.code.orElse fun _ => a.code
  carrier := b.carrier.orElse fun _ => a.carrier
  carrierCode := b.carrierCode.orElse fun _ => a.carrierCode
  url := b.url.orElse fun _ => a.url
  estimatedDelivery := b.estimatedDelivery.orElse fun _ => a.estimatedDelivery
  shippedDate := b.shippedDate.orElse fun _ => a.shippedDate
  service := b.service.orElse fun _ => a.service
  weight := b.weight.orElse fun _ => a.weight
  dimensions := b.dimensions.orElse fun _ => a.dimensions
  cost := b.cost.orElse fun _ => a.cost
  notes := b.notes.orElse fun _ => a.notes
  updatedBy := b.updatedBy.orElse fun _ => a.updatedBy
  updatedAt := b.updatedAt.orElse fun _ => a.updatedAt

/-- The write batch built by `restoreInventory`: one `(productId, newStock)`
entry per line item whose product document exists, each computed by reading
the pre-batch store (a buffered batch write is not visible to `getDoc`). -/
def restoreEntries (orderItems : List LineItem) (products : ProductStore) :
    List (String × Nat) :=
  orderItems.filterMap fun item =>
    match products item.productId with
    | some p => some (item.productId, p.stock.getD 0 + item.quantity)
    | none => none

/-- One buffered `batch.update` of the restoration batch: merge the new stock
count and the `lastRestored` timestamp into the product document. -/
def restoreWrite (now : Nat) (s : ProductStore) (e : String × Nat) : ProductStore :=
  s.update e.1 fun p => { p with stock := some e.2, lastRestored := some now }

/-- `batch.commit()` of the restoration batch: apply the buffered writes in
order, so a later entry for the same product wins. -/
def restoreCommit (now : Nat) (entries : List (String × Nat)) (s : ProductStore) :
    ProductStore :=
  entries.foldl (restoreWrite now) s

/-- `AdminOrderService.restoreInventory`: builds the write batch against the
pre-batch store, skipping items whose product document does not exist, then
commits the batch. -/
def AdminOrderService.restoreInventory (now : Nat) (orderItems : List LineItem)
    (products : ProductStore) : ProductStore :=
  restoreCommit now (restoreEntries orderItems products) products

/-- The stock count an order operation sees for a product id: the document's
`stock` field with the JS `|| 0` default (also 0 when the document is absent). -/
def stockOf (s : ProductStore) (k : String) : Nat :=
  ((s k).bind Product.stock).getD 0

/-- The `statusHistoryEntry` built by `AdminOrderService.updateOrderStatus`. -/
def adminStatusHistoryEntry (now : Nat) (newStatus currentStatus : String)
    (updateInfo : UpdateInfo) (adminUserId : String) : StatusHistoryEntry where
  status := newStatus
  timestamp := now
  note := jsOr updateInfo.note ("Order " ++ newStatus.toLower ++ " by admin")
  updatedBy := some adminUserId
  previousStatus := some currentStatus
  adminNotes := some updateInfo.adminNotes
  metadata :=
    [("updateReason", jsOr updateInfo.reason "Status change"),
     ("ipAddress", jsOr updateInfo.ipAddress "unknown"),
     ("userAgent", jsOr updateInfo.userAgent "admin-panel")] ++ updateInfo.metadata

/-- The full `updateData` of `AdminOrderService.updateOrderStatus` merged into
the current order document: the base fields (status, updatedAt, lastUpdatedBy,
appended statusHistory) plus the status-specific `switch` cases. -/
def adminBuildUpdatedOrder (now : Nat) (o : Order) (newStatus : String)
    (updateInfo : UpdateInfo) (adminUserId : String) : Order :=
  let entry := adminStatusHistoryEntry now newStatus o.status updateInfo adminUserId
  let base := { o with
    status := newStatus
    updatedAt := some now
    lastUpdatedBy := some adminUserId
    statusHistory := o.statusHistory ++ [entry] }
  if newStatus = ORDER_STATUSES.APPROVED then
    { base with
      approvedAt := some now
      approvedBy := some adminUserId
      priority := jsOr updateInfo.priority (jsOr o.priority ORDER_PRIORITIES.NORMAL) }
  else if newStatus = ORDER_STATUSES.PACKED then
    let packed := { base with
      packedAt := some now
      packedBy := some adminUserId
      packingNotes := some updateInfo.packingNotes }
    if (o.tracking.bind Tracking.carrier).getD "" = "" then
      let isInternational :=
        ((o.shipping.bind ShippingField.address).map Address.country).getD "" ≠ "India"
      { packed with
        tracking := some { o.tracking.getD {} with
          carrier := some (if isInternational then SHIPPING_CARRIERS.DHL.name
                           else SHIPPING_CARRIERS.INDIA_POST.name) } }
    else packed
  else if newStatus = ORDER_STATUSES.SHIPPED then
    let shipped := { base with shippedAt := some now, shippedBy := some adminUserId }
    match updateInfo.tracking with
    | some t =>
        { shipped with
          tracking := some { (o.tracking.getD {}).spread t with shippedDate := some now } }
    | none => shipped
  else if newStatus = ORDER_STATUSES.DELIVERED then
    { base with
      deliveredAt := some now
      deliveryConfirmation :=
        some (jsOr updateInfo.deliveryConfirmation "Admin marked as delivered") }
  else if newStatus = ORDER_STATUSES.DECLINED then
    { base with
      declinedAt := some now
      declinedBy := some adminUserId
      declineReason := some (jsOr updateInfo.reason "Order declined by admin") }
  else if newStatus = ORDER_STATUSES.CANCELLED then
    { base with
      cancelledAt := some now
      cancelledBy := some adminUserId
      cancellationReason := some (jsOr updateInfo.reason "Order cancelled") }
  else if newStatus = ORDER_STATUSES.REFUNDED then
    { base with
      refundedAt := some now
      refundedBy := some adminUserId
      refundAmount :=
        if jsFalsyNum updateInfo.refundAmount then o.total else updateInfo.refundAmount
      refundReason := some (jsOr updateInfo.reason "Refund processed")
      refundMethod := some (jsOr updateInfo.refundMethod "original_payment_method") }
  else base

/-- Result payload returned by a successful `updateOrderStatus` call. -/
structure UpdateSummary where
  orderId : String
  previousStatus : String
  newStatus : String
  timestamp : Nat
  deriving DecidableEq, Repr

/-- Post-state and result of one `AdminOrderService.updateOrderStatus` call.
`warned` records whether the out-of-table console warning fired. -/
structure AdminUpdateOutcome where
  warned : Bool
  orders : OrderStore
  products : ProductStore
  result : Except String UpdateSummary

/-- Everything `AdminOrderService.updateOrderStatus` does after its input
validation succeeds: the inventory-restoration side effect for
Declined/Cancelled (batched and committed before the transaction), then the
transactional merge of `updateData` into the order document. The same
`updateData` is also merged into the customer's denormalized order copies in
a separate per-user collection, which is outside the modelled state. -/
def adminApplyStatusUpdate (now : Nat) (orders : OrderStore) (products : ProductStore)
    (orderId : String) (currentOrder : Order) (newStatus : String)
    (updateInfo : UpdateInfo) (adminUserId : String) :
    OrderStore × ProductStore × UpdateSummary :=
  let products' :=
    if newStatus = ORDER_STATUSES.DECLINED ∨ newStatus = ORDER_STATUSES.CANCELLED then
      AdminOrderService.restoreInventory now currentOrder.items products
    else products
  let updated := adminBuildUpdatedOrder now currentOrder newStatus updateInfo adminUserId
  (orders.set orderId updated, products',
   { orderId := orderId, previousStatus := currentOrder.status,
     newStatus := newStatus, timestamp := now })

/-- `AdminOrderService.updateOrderStatus`: validates the target status against
the enumeration, requires the order to exist, computes the out-of-table
warning (the transition table is consulted only for the warning; the update
proceeds regardless — admin override), and applies the update. -/
def AdminOrderService.updateOrderStatus (now : Nat) (orders : OrderStore)
    (products : ProductStore) (orderId newStatus : String) (updateInfo : UpdateInfo)
    (adminUserId : String) : AdminUpdateOutcome :=
  if ORDER_STATUSES.values.contains newStatus = false then
    { warned := false, orders := orders, products := products
      result := .error ("Invalid order status: " ++ newStatus ++ ". Must be one of: "
        ++ String.intercalate ", " ORDER_STATUSES.values) }
  else
    match orders orderId with
    | none =>
        { warned := false, orders := orders, products := products
          result := .error ("Order with ID " ++ orderId ++ " not found in database") }
    | some currentOrder =>
        let warned :=
          match validTransitions currentOrder.status with
          | some allowed => !(allowed.contains newStatus)
          | none => false
        let r := adminApplyStatusUpdate now orders products orderId currentOrder
          newStatus updateInfo adminUserId
        { warned := warned, orders := r.1, products := r.2.1, result := .ok r.2.2 }

/-- The `shippingInfo` argument of `AdminOrderService.updateShippingInfo`. -/
structure ShippingInfoInput where
  trackingNumber : String := ""
  carrier : String := ""
  service : String := ""
  weight : Option Rat := none
  dimensions : String := ""
  shippingCost : Option Rat := none
  notes : String := ""
  deriving DecidableEq, Repr

/-- Result payload returned by a successful `updateShippingInfo` call. -/
structure ShippingSummary where
  orderId : String
  trackingNumber : String
  carrier : String
  estimatedDelivery : Nat
  deriving DecidableEq, Repr

/-- Post-state and result of one `AdminOrderService.updateShippingInfo` call. -/
structure ShippingOutcome where
  orders : OrderStore
  result : Except String ShippingSummary

/-- `AdminOrderService.updateShippingInfo`: validates tracking number and
carrier (JS falsy, so the empty string is rejected), requires the order to
exist and be Packed or Shipped, builds the tracking descriptor with an ETA of
`now + standardDays` (7 for an unknown carrier), sets status to Shipped and
appends one status-history entry. -/
def AdminOrderService.updateShippingInfo (now : Nat) (orders : OrderStore)
    (orderId : String) (shippingInfo : ShippingInfoInput) (adminUserId : String) :
    ShippingOutcome :=
  if shippingInfo.trackingNumber = "" then
    { orders := orders
      result := .error "Tracking number is required for shipping updates" }
  else if shippingInfo.carrier = "" then
    { orders := orders
      result := .error "Shipping carrier is required for shipping updates" }
  else
    match orders orderId with
    | none => { orders := orders, result := .error ("Order " ++ orderId ++ " not found") }
    | some currentOrder =>
        if currentOrder.status ≠ ORDER_STATUSES.PACKED ∧
            currentOrder.status ≠ ORDER_STATUSES.SHIPPED then
          { orders := orders
            result := .error ("Order must be in " ++ ORDER_STATUSES.PACKED ++ " or "
              ++ ORDER_STATUSES.SHIPPED
              ++ " status to update shipping info. Current status: " ++ currentOrder.status) }
        else
          let carrierConfig := SHIPPING_CARRIERS.values.find? fun c =>
            (c.name.toLower == shippingInfo.carrier.toLower) ||
            (c.code.toLower == shippingInfo.carrier.toLower)
          let deliveryDays := (carrierConfig.map CarrierConfig.standardDays).getD 7
          let estimatedDeliveryDate := now + deliveryDays
          let trackingData : Tracking :=
            { code := some shippingInfo.trackingNumber
              carrier := some ((carrierConfig.map CarrierConfig.name).getD
                shippingInfo.carrier)
              carrierCode := some ((carrierConfig.map CarrierConfig.code).getD
                shippingInfo.carrier.toUpper)
              url := carrierConfig.map CarrierConfig.trackingUrl
              estimatedDelivery := some estimatedDeliveryDate
              shippedDate := some now
              service := some (jsOr shippingInfo.service "standard")
              weight := if jsFalsyNum shippingInfo.weight then none else shippingInfo.weight
              dimensions :=
                if shippingInfo.dimensions = "" then none else some shippingInfo.dimensions
              cost := some
                (if jsFalsyNum shippingInfo.shippingCost = false then
                  shippingInfo.shippingCost.getD 0
                 else if jsFalsyNum (currentOrder.shipping.bind ShippingField.cost) = false then
                  (currentOrder.shipping.bind ShippingField.cost).getD 0
                 else 0)
              notes := some shippingInfo.notes
              updatedBy := some adminUserId
              updatedAt := some now }
          let statusUpdate : StatusHistoryEntry :=
            { status := ORDER_STATUSES.SHIPPED
              timestamp := now
              note := "Order shipped via " ++ (trackingData.carrier.getD "")
                ++ " with tracking number " ++ (trackingData.code.getD "")
              updatedBy := some adminUserId
              metadata :=
                [("trackingNumber", trackingData.code.getD ""),
                 ("carrier", trackingData.carrier.getD ""),
                 ("estimatedDelivery", toString estimatedDeliveryDate)] }
          let updated := { currentOrder with
            status := ORDER_STATUSES.SHIPPED
            tracking := some trackingData
            shippedAt := some now
            shippedBy := some adminUserId
            updatedAt := some now
            statusHistory := currentOrder.statusHistory ++ [statusUpdate] }
          { orders := orders.set orderId updated
            result := .ok
              { orderId := orderId
                trackingNumber := shippingInfo.trackingNumber
                carrier := trackingData.carrier.getD ""
                estimatedDelivery := estimatedDeliveryDate } }

/-- The `operationData` argument of `AdminOrderService.bulkOperation`. -/
structure BulkOperationData where
  status : String := ""
  priority : String := ""
  tag : String := ""
  note : String := ""
  deriving DecidableEq, Repr

/-- One per-item entry of a bulk operation's `results` array. -/
structure BulkResultItem where
  orderId : String
  success : Bool
  error : Option String := none
  operation : Option String := none
  deriving DecidableEq, Repr

/-- The aggregate payload returned by a successful `bulkOperation` call. -/
structure BulkSummary where
  operation : String
  totalOrders : Nat
  successCount : Nat
  failureCount : Nat
  results : List BulkResultItem
  deriving DecidableEq, Repr

/-- Post-state and result of one `AdminOrderService.bulkOperation` call. -/
structure BulkOutcome where
  orders : OrderStore
  result : Except String BulkSummary

/-- One iteration of the `bulkOperation` loop for a single order id, reading
the pre-batch store: yields the per-item result entry pushed (if any; the
`add_tag` case pushes nothing when the tag is already present) and the write
buffered into the batch (if any). -/
def bulkStep (now : Nat) (orders : OrderStore) (operation : String)
    (operationData : BulkOperationData) (adminUserId : String) (orderId : String) :
    Option BulkResultItem × Option (String × Order) :=
  match orders orderId with
  | none =>
      (some { orderId := orderId, success := false, error := some "Order not found" }, none)
  | some currentOrder =>
      if operation = "update_status" then
        if ORDER_STATUSES.values.contains operationData.status = false then
          (some { orderId := orderId, success := false
                  error := some ("Invalid status: " ++ operationData.status) }, none)
        else
          let updated := { currentOrder with
            status := operationData.status
            updatedAt := some now
            lastUpdatedBy := some adminUserId
            statusHistory := currentOrder.statusHistory ++
              [{ status := operationData.status
                 timestamp := now
                 note := jsOr operationData.note
                   ("Bulk status update to " ++ operationData.status)
                 updatedBy := some adminUserId
                 metadata := [("bulkOperation", "true")] }] }
          (some { orderId := orderId, success := true, operation := some operation },
           some (orderId, updated))
      else if operation = "update_priority" then
        if ORDER_PRIORITIES.values.contains operationData.priority = false then
          (some { orderId := orderId, success := false
                  error := some ("Invalid priority: " ++ operationData.priority) }, none)
        else
          let updated := { currentOrder with
            priority := operationData.priority
            updatedAt := some now
            lastUpdatedBy := some adminUserId }
          (some { orderId := orderId, success := true, operation := some operation },
           some (orderId, updated))
      else if operation = "add_tag" then
        if currentOrder.tags.contains operationData.tag then (none, none)
        else
          let updated := { currentOrder with
            tags := currentOrder.tags ++ [operationData.tag]
            updatedAt := some now
            lastUpdatedBy := some adminUserId }
          (some { orderId := orderId, success := true, operation := some operation },
           some (orderId, updated))
      else if operation = "remove_tag" then
        let updated := { currentOrder with
          tags := currentOrder.tags.filter (· != operationData.tag)
          updatedAt := some now
          lastUpdatedBy := some adminUserId }
        (some { orderId := orderId, success := true, operation := some operation },
         some (orderId, updated))
      else if operation = "add_admin_note" then
        let updated := { currentOrder with
          adminNotes := currentOrder.adminNotes ++ "\n" ++ operationData.note
          updatedAt := some now
          lastUpdatedBy := some adminUserId }
        (some { orderId := orderId, success := true, operation := some operation },
         some (orderId, updated))
      else
        (some { orderId := orderId, success := false
                error := some ("Unknown operation: " ++ operation) }, none)

/-- `AdminOrderService.bulkOperation`: rejects an empty id list, then a list
over 50 ids, before any read or write; otherwise processes each id
independently against the pre-batch store, collects per-item results, and
commits all buffered writes as one batch (in order). -/
def AdminOrderService.bulkOperation (now : Nat) (orders : OrderStore)
    (operation : String) (orderIds : List String) (operationData : BulkOperationData)
    (adminUserId : String) : BulkOutcome :=
  if orderIds.length = 0 then
    { orders := orders, result := .error "No order IDs provided for bulk operation" }
  else if 50 < orderIds.length then
    { orders := orders
      result := .error
        "Bulk operations are limited to 50 orders at a time for performance reasons" }
  else
    let steps := orderIds.map (bulkStep now orders operation operationData adminUserId)
    let results := steps.filterMap Prod.fst
    let entries := steps.filterMap Prod.snd
    { orders := entries.foldl (fun s e => s.set e.1 e.2) orders
      result := .ok
        { operation := operation
          totalOrders := orderIds.length
          successCount := (results.filter (·.success)).length
          failureCount := (results.filter (fun r => !r.success)).length
          results := results } }

/-- The `additionalInfo` argument of the Orders page's `updateOrderStatus`
handler (only `note` is ever read; the Decline button's `reason` is ignored). -/
structure AdditionalInfo where
  note : String := ""
  reason : String := ""
  deriving DecidableEq, Repr

/-- Post-state of one call of the Orders page's own `updateOrderStatus`
handler. `err` is the toast shown on failure. -/
structure PageUpdateOutcome where
  orders : OrderStore
  products : ProductStore
  err : Option String

/-- The admin Orders page's own `updateOrderStatus` handler (the simplified
path): reads the order, asks for confirmation on Declined/Cancelled
(`confirmed` is the user's answer to `window.confirm`; a dismissal returns
with no write), then writes only `{status, statusHistory}` via `updateDoc`.
It never touches the products collection. -/
def OrdersPage.updateOrderStatus (now : Nat) (orders : OrderStore)
    (products : ProductStore) (confirmed : Bool) (orderId newStatus : String)
    (additionalInfo : AdditionalInfo) : PageUpdateOutcome :=
  match orders orderId with
  | none => { orders := orders, products := products, err := some "Order not found" }
  | some orderData =>
      if (newStatus = "Declined" ∨ newStatus = "Cancelled") ∧ confirmed = false then
        { orders := orders, products := products, err := none }
      else
        let statusUpdate : StatusHistoryEntry :=
          { status := newStatus
            timestamp := now
            note := jsOr additionalInfo.note ("Order " ++ newStatus.toLower ++ " by admin") }
        let updated := { orderData with
          status := newStatus
          statusHistory := orderData.statusHistory ++ [statusUpdate] }
        { orders := orders.set orderId updated, products := products, err := none }

/-- The signed-in user at checkout. -/
structure CheckoutUser where
  uid : String
  email : String := ""
  displayName : String := ""
  deriving DecidableEq, Repr

/-- A catalog product as seen by the cart page. -/
structure CartProduct where
  id : String
  name : String := ""
  price : Rat := 0
  image : String := ""
  deriving DecidableEq, Repr

/-- One cart line joined with its product (`cartDetails` in the source). -/
structure CartDetail where
  productId : String
  quantity : Nat
  product : CartProduct
  deriving DecidableEq, Repr

/-- `Cart.completeOrder`: the order document created at checkout. Subtotal is
the sum of price times quantity, tax is 18% GST, no discount, total is
subtotal plus tax; status starts at Placed with a single seeded
status-history entry. The shipping address snapshot is passed in already
assembled (the source concatenates the address form fields into it). -/
def Cart.completeOrder (now : Nat) (user : CheckoutUser) (customerName : String)
    (phone : String) (address : Address) (cartDetails : List CartDetail) : Order :=
  let subtotal : Rat :=
    cartDetails.foldl (fun acc item => acc + item.product.price * (item.quantity : Rat)) 0
  let tax : Rat := subtotal * (18 / 100 : Rat)
  let discountAmount : Rat := 0
  let total : Rat := subtotal + tax
  { userId := user.uid
    userEmail := user.email
    userName := jsOr customerName user.displayName
    userPhone := phone
    orderDate := some now
    createdAt := some now
    items := cartDetails.map fun item =>
      { productId := item.productId
        name := item.product.name
        price := item.product.price
        quantity := item.quantity
        image := item.product.image }
    paymentMethod := "COD"
    subtotal := some subtotal
    tax := some tax
    discount := some discountAmount
    totalAmount := some total
    status := "Placed"
    statusHistory :=
      [{ status := "Placed", timestamp := now, note := "Order placed successfully" }]
    shippingAddress := some { address with name := customerName } }

/-- The missing-total reconstruction in `MyAccount.fetchOrders`: when both
`totalAmount` and `total` are JS-falsy (absent or zero), `totalAmount` is set
to `subtotal + tax + shipping + importDuty - discount`, where `shipping` is
the local constant 0 in the source. -/
def MyAccount.ensureTotalAmount (o : Order) : Order :=
  if jsFalsyNum o.totalAmount && jsFalsyNum o.total then
    let subtotal := o.subtotal.getD 0
    let tax := o.tax.getD 0
    let shipping : Rat := 0
    let discount := o.discount.getD 0
    let importDuty := o.importDuty.getD 0
    { o with totalAmount := some (subtotal + tax + shipping + importDuty - discount) }
  else o

/-- Stated from the spec's words, for comparison with the code: the grand
total "is reconstructible as `subtotal + tax + shippingCost − discount`",
reading the order's stored shipping cost. -/
def specReconstructedTotal (o : Order) : Rat :=
  o.subtotal.getD 0 + o.tax.getD 0 + (o.shipping.bind ShippingField.cost).getD 0
    - o.discount.getD 0

/-- A Delivered order, for exercising the admin override. -/
def c1Order : Order := { status := "Delivered" }

/-- Concrete store for exercising the admin override: one Delivered order. -/
def c1Orders : OrderStore :=
  fun k => if k = "o1" then some c1Order else none

/-- A freshly placed order with its seeded history entry. -/
def c2Order : Order :=
  { status := "Placed"
    statusHistory := [{ status := "Placed", timestamp := 0, note := "Order placed successfully" }] }

/-- Concrete store for exercising a plain Placed-to-Approved update. -/
def c2Orders : OrderStore :=
  fun k => if k = "o2" then some c2Order else none

/-- An order holding two line items for the same product, as the duplicate
input to the restoration path. -/
def c3DupOrder : Order :=
  { status := "Placed"
    items := [{ productId := "p", name := "widget", quantity := 2 },
              { productId := "p", name := "widget", quantity := 3 }] }

/-- Product store with the duplicated product at stock 10. -/
def c3Products : ProductStore :=
  fun k => if k = "p" then some { stock := some 10 } else none

/-- Store holding the duplicate-item order. -/
def c3Orders : OrderStore :=
  fun k => if k = "o3" then some c3DupOrder else none

/-- Cancelling the duplicate-item order through the admin service. -/
def c3DupOutcome : AdminUpdateOutcome :=
  AdminOrderService.updateOrderStatus 5 c3Orders c3Products "o3" "Cancelled" {} "admin"

/-- Three checkout line items totaling 250. -/
def c5Cart : List CartDetail :=
  [{ productId := "p1", quantity := 1, product := { id := "p1", name := "A", price := 100 } },
   { productId := "p2", quantity := 1, product := { id := "p2", name := "B", price := 100 } },
   { productId := "p3", quantity := 1, product := { id := "p3", name := "C", price := 50 } }]

/-- The order the checkout scenario starts from. -/
def c5Order : Order :=
  Cart.completeOrder 0 { uid := "u1", email := "u1@example.com" } "Customer"
    "+911234500000" { country := "India" } c5Cart

/-- Store holding the checkout order under id `o5`. -/
def c5Orders0 : OrderStore := fun k => if k = "o5" then some c5Order else none

/-- Scenario step 1: transition to Approved. -/
def c5Step1 : AdminUpdateOutcome :=
  AdminOrderService.updateOrderStatus 1 c5Orders0 ProductStore.empty "o5" "Approved" {} "admin"

/-- Scenario step 2: transition to Packed. -/
def c5Step2 : AdminUpdateOutcome :=
  AdminOrderService.updateOrderStatus 2 c5Step1.orders c5Step1.products "o5" "Packed" {} "admin"

/-- Scenario step 3: attach DHL shipping with tracking number X123. -/
def c5Step3 : ShippingOutcome :=
  AdminOrderService.updateShippingInfo 3 c5Step2.orders "o5"
    { trackingNumber := "X123", carrier := "DHL" } "admin"

/-- An order with absent totals, a stored shipping cost of 50, and a discount
exceeding subtotal plus tax. -/
def c9Order : Order :=
  { subtotal := some 100, tax := some 0, discount := some 200
    shipping := some { cost := some 50 } }

/-- The order of the spec's round-trip example: subtotal 100, tax 18, no
discount, absent totals. -/
def c9ExampleOrder : Order :=
  { subtotal := some 100, tax := some 18, discount := some 0 }

/-- A Placed order with a single two-unit line item. -/
def c3wOrder : Order :=
  { status := "Placed", items := [{ productId := "a", quantity := 2 }] }

/-- Store holding the single-item order under id `ow`. -/
def c3wOrders : OrderStore := fun k => if k = "ow" then some c3wOrder else none

/-- Product store with product `a` at stock 5. -/
def c3wProducts : ProductStore := fun k => if k = "a" then some { stock := some 5 } else none

/-- A Placed order carrying pre-set admin fields, for the frame check of the
Orders page handler. -/
def c4Order : Order :=
  { status := "Placed"
    statusHistory := [{ status := "Placed", timestamp := 0, note := "Order placed successfully" }]
    items := [{ productId := "a", quantity := 1 }]
    approvedAt := some 4
    priority := "high"
    tracking := some { carrier := some "DHL" } }

/-- Store holding the frame-check order under id `o4`. -/
def c4Orders : OrderStore := fun k => if k = "o4" then some c4Order else none

/-- Store for the mixed bulk-failure run: order `a1` exists, `b1` does not. -/
def c6Orders : OrderStore :=
  fun k => if k = "a1" then some { status := "Placed" } else none

/-- An order store with no documents. -/
def OrderStore.empty : OrderStore := fun _ => none

/-- A missing-product line item for the restoration skip check. -/
def c10Bad : LineItem := { productId := "b", quantity := 4 }

/-- An existing-product line item processed alongside the missing one. -/
def c10Good : LineItem := { productId := "a", quantity := 1 }

/-- Product store holding only product `a`, so `b` is a dangling reference. -/
def c10Products : ProductStore := fun k => if k = "a" then some { stock := some 5 } else none

theorem restoreCommit_get_of_forall_ne (now : Nat) (entries : List (String × Nat))
    (s : ProductStore) (k : String) (h : ∀ e ∈ entries, e.1 ≠ k) :
    restoreCommit now entries s k = s k := by
  induction entries generalizing s with
  | nil => rfl
  | cons e es ih =>
      have hstep : restoreCommit now (e :: es) s = restoreCommit now es (restoreWrite now s e) := rfl
      rw [hstep, ih (restoreWrite now s e) fun e' he' => h e' (List.mem_cons_of_mem _ he')]
      have hek : ¬ (k = e.1) := fun hk => h e (List.mem_cons_self _ _) hk.symm
      simp [restoreWrite, ProductStore.update, hek]

theorem restoreCommit_get_of_mem (now : Nat) (entries : List (String × Nat))
    (s : ProductStore) (k : String) (v : Nat)
    (hnd : (entries.map Prod.fst).Nodup) (hmem : (k, v) ∈ entries) :
    restoreCommit now entries s k
      = (s k).map fun p => { p with stock := some v, lastRestored := some now } := by
  induction entries generalizing s with
  | nil => cases hmem
  | cons e es ih =>
      have hstep : restoreCommit now (e :: es) s = restoreCommit now es (restoreWrite now s e) := rfl
      rcases List.mem_cons.mp hmem with heq | hmem'
      · cases heq.symm
        have hk : k ∉ es.map Prod.fst := by
          simpa using (List.nodup_cons.mp hnd).1
        have hne : ∀ e' ∈ es, e'.1 ≠ k := by
          intro e' he' hcontra
          exact hk (List.mem_map.mpr ⟨e', he', hcontra⟩)
        rw [hstep, restoreCommit_get_of_forall_ne now es _ k hne]
        simp [restoreWrite, ProductStore.update]
      · have hne : e.1 ≠ k := by
          intro hk
          have h1 : e.1 ∉ es.map Prod.fst := (List.nodup_cons.mp hnd).1
          exact h1 (hk ▸ List.mem_map.mpr ⟨(k, v), hmem', rfl⟩)
        rw [hstep, ih (restoreWrite now s e) (List.nodup_cons.mp hnd).2 hmem']
        have hke : ¬ (k = e.1) := fun hk => hne hk.symm
        have hwk : restoreWrite now s e k = s k := by
          simp [restoreWrite, ProductStore.update, hke]
        rw [hwk]

theorem mem_restoreEntries_isSome (orderItems : List LineItem) (products : ProductStore)
    (e : String × Nat) (he : e ∈ restoreEntries orderItems products) :
    (products e.1).isSome := by
  rw [restoreEntries, List.mem_filterMap] at he
  obtain ⟨item, _hitem, hf⟩ := he
  cases hp : products item.productId with
  | none => rw [hp] at hf; cases hf
  | some p =>
      rw [hp] at hf
      cases hf
      simp [hp]

theorem restoreEntries_all_exist (orderItems : List LineItem) (products : ProductStore)
    (hex : ∀ item ∈ orderItems, (products item.productId).isSome) :
    restoreEntries orderItems products
      = orderItems.map fun item =>
          (item.productId, stockOf products item.productId + item.quantity) := by
  induction orderItems with
  | nil => rfl
  | cons it its ih =>
      obtain ⟨p, hp⟩ := Option.isSome_iff_exists.mp (hex it (List.mem_cons_self _ _))
      have hrest := ih fun item hmem => hex item (List.mem_cons_of_mem _ hmem)
      rw [restoreEntries] at hrest ⊢
      rw [List.filterMap_cons]
      simp only [hp, List.map_cons]
      rw [hrest]
      simp [stockOf, hp]

theorem restoreInventory_missing_unchanged (now : Nat) (orderItems : List LineItem)
    (products : ProductStore) (k : String) (h : products k = none) :
    AdminOrderService.restoreInventory now orderItems products k = none := by
  rw [AdminOrderService.restoreInventory,
    restoreCommit_get_of_forall_ne now _ products k ?_, h]
  intro e he heq
  have := mem_restoreEntries_isSome orderItems products e he
  rw [heq, h] at this
  cases this

theorem restoreInventory_stock (now : Nat) (items : List LineItem)
    (products : ProductStore) (hnd : (items.map LineItem.productId).Nodup)
    (hex : ∀ item ∈ items, (products item.productId).isSome)
    (item : LineItem) (hmem : item ∈ items) :
    stockOf (AdminOrderService.restoreInventory now items products) item.productId
      = stockOf products item.productId + item.quantity := by
  rw [AdminOrderService.restoreInventory, restoreEntries_all_exist items products hex]
  have hmem' : (item.productId, stockOf products item.productId + item.quantity)
      ∈ items.map fun it => (it.productId, stockOf products it.productId + it.quantity) :=
    List.mem_map.mpr ⟨item, hmem, rfl⟩
  have hnd' : ((items.map fun it =>
      (it.productId, stockOf products it.productId + it.quantity)).map Prod.fst).Nodup := by
    simpa [List.map_map, Function.comp] using hnd
  rw [stockOf, restoreCommit_get_of_mem now _ products item.productId _ hnd' hmem']
  obtain ⟨p, hp⟩ := Option.isSome_iff_exists.mp (hex item hmem)
  simp [stockOf, hp]

theorem updateOrderStatus_products_restore (now : Nat) (orders : OrderStore)
    (products : ProductStore) (orderId : String) (o : Order) (newStatus : String)
    (updateInfo : UpdateInfo) (adminUserId : String)
    (hfound : orders orderId = some o)
    (hstatus : newStatus = ORDER_STATUSES.DECLINED ∨ newStatus = ORDER_STATUSES.CANCELLED) :
    (AdminOrderService.updateOrderStatus now orders products orderId newStatus updateInfo
        adminUserId).products
      = AdminOrderService.restoreInventory now o.items products := by
  rcases hstatus with h | h <;> subst h <;>
    rw [AdminOrderService.updateOrderStatus, if_neg (by decide), hfound] <;>
    simp [adminApplyStatusUpdate, ORDER_STATUSES.DECLINED, ORDER_STATUSES.CANCELLED]

/-- C1: for an existing order whose (current status, requested status) pair is
outside the transition table, `AdminOrderService.updateOrderStatus` does not
reject the request: the warning flag fires, and the resulting stores and the
success result are exactly those of `adminApplyStatusUpdate` — the same
post-validation application used for every in-table transition, which never
reads the table. -/
theorem updateOrderStatus_admin_override (now : Nat) (orders : OrderStore)
    (products : ProductStore) (orderId : String) (o : Order) (newStatus : String)
    (updateInfo : UpdateInfo) (adminUserId : String) (allowed : List String)
    (hvalid : ORDER_STATUSES.values.contains newStatus = true)
    (hfound : orders orderId = some o)
    (htable : validTransitions o.status = some allowed)
    (hout : allowed.contains newStatus = false) :
    (AdminOrderService.updateOrderStatus now orders products orderId newStatus updateInfo
        adminUserId).warned = true ∧
    (AdminOrderService.updateOrderStatus now orders products orderId newStatus updateInfo
        adminUserId).orders
      = (adminApplyStatusUpdate now orders products orderId o newStatus updateInfo
          adminUserId).1 ∧
    (AdminOrderService.updateOrderStatus now orders products orderId newStatus updateInfo
        adminUserId).products
      = (adminApplyStatusUpdate now orders products orderId o newStatus updateInfo
          adminUserId).2.1 ∧
    (AdminOrderService.updateOrderStatus now orders products orderId newStatus updateInfo
        adminUserId).result
      = .ok (adminApplyStatusUpdate now orders products orderId o newStatus updateInfo
          adminUserId).2.2 := by
  have hout' : newStatus ∉ allowed := by simpa using hout
  rw [AdminOrderService.updateOrderStatus, if_neg (by rw [hvalid]; simp), hfound]
  exact ⟨by simp [htable, hout'], rfl, rfl, rfl⟩

/-- Witness for C1: Delivered to Approved is outside the table, yet the update
is applied with only the warning flag set. -/
theorem updateOrderStatus_admin_override_witness :
    (AdminOrderService.updateOrderStatus 7 c1Orders ProductStore.empty "o1" "Approved" {}
        "admin").warned = true ∧
    (AdminOrderService.updateOrderStatus 7 c1Orders ProductStore.empty "o1" "Approved" {}
        "admin").orders
      = (adminApplyStatusUpdate 7 c1Orders ProductStore.empty "o1" c1Order "Approved" {}
          "admin").1 ∧
    (AdminOrderService.updateOrderStatus 7 c1Orders ProductStore.empty "o1" "Approved" {}
        "admin").products
      = (adminApplyStatusUpdate 7 c1Orders ProductStore.empty "o1" c1Order "Approved" {}
          "admin").2.1 ∧
    (AdminOrderService.updateOrderStatus 7 c1Orders ProductStore.empty "o1" "Approved" {}
        "admin").result
      = .ok (adminApplyStatusUpdate 7 c1Orders ProductStore.empty "o1" c1Order "Approved" {}
          "admin").2.2 :=
  updateOrderStatus_admin_override 7 c1Orders ProductStore.empty "o1" c1Order "Approved" {}
    "admin" ["Refunded"] (by decide) (by decide) (by decide) (by decide)

theorem adminBuildUpdatedOrder_statusHistory (now : Nat) (o : Order) (newStatus : String)
    (updateInfo : UpdateInfo) (adminUserId : String) :
    (adminBuildUpdatedOrder now o newStatus updateInfo adminUserId).statusHistory
      = o.statusHistory
        ++ [adminStatusHistoryEntry now newStatus o.status updateInfo adminUserId] := by
  rw [adminBuildUpdatedOrder]
  split_ifs <;> first
    | rfl
    | (cases updateInfo.tracking <;> rfl)

/-- C2: a successful `AdminOrderService.updateOrderStatus` call (existing
order, enumerated target status) appends exactly one status-history entry —
carrying the new status, the timestamp, a note and the acting admin — to the
end of the existing log, removing and reordering nothing, so the log grows by
exactly one. -/
theorem updateOrderStatus_appends_one_history_entry (now : Nat) (orders : OrderStore)
    (products : ProductStore) (orderId : String) (o : Order) (newStatus : String)
    (updateInfo : UpdateInfo) (adminUserId : String)
    (hvalid : ORDER_STATUSES.values.contains newStatus = true)
    (hfound : orders orderId = some o) :
    ∃ o',
      (AdminOrderService.updateOrderStatus now orders products orderId newStatus updateInfo
          adminUserId).result
        = .ok { orderId := orderId, previousStatus := o.status, newStatus := newStatus,
                timestamp := now } ∧
      (AdminOrderService.updateOrderStatus now orders products orderId newStatus updateInfo
          adminUserId).orders orderId = some o' ∧
      o'.statusHistory = o.statusHistory
        ++ [adminStatusHistoryEntry now newStatus o.status updateInfo adminUserId] ∧
      (adminStatusHistoryEntry now newStatus o.status updateInfo adminUserId).status
        = newStatus ∧
      (adminStatusHistoryEntry now newStatus o.status updateInfo adminUserId).timestamp
        = now ∧
      (adminStatusHistoryEntry now newStatus o.status updateInfo adminUserId).note
        = jsOr updateInfo.note ("Order " ++ newStatus.toLower ++ " by admin") ∧
      (adminStatusHistoryEntry now newStatus o.status updateInfo adminUserId).updatedBy
        = some adminUserId ∧
      o'.statusHistory.length = o.statusHistory.length + 1 := by
  refine ⟨adminBuildUpdatedOrder now o newStatus updateInfo adminUserId,
    ?_, ?_, adminBuildUpdatedOrder_statusHistory now o newStatus updateInfo adminUserId,
    rfl, rfl, rfl, rfl, ?_⟩
  · rw [AdminOrderService.updateOrderStatus, if_neg (by rw [hvalid]; simp), hfound]
    rfl
  · rw [AdminOrderService.updateOrderStatus, if_neg (by rw [hvalid]; simp), hfound]
    simp [adminApplyStatusUpdate, OrderStore.set]
  · rw [adminBuildUpdatedOrder_statusHistory now o newStatus updateInfo adminUserId]
    simp

/-- Witness for C2: approving a freshly placed order grows its history from
one entry to two. -/
theorem updateOrderStatus_appends_one_history_entry_witness :
    ∃ o',
      (AdminOrderService.updateOrderStatus 1 c2Orders ProductStore.empty "o2" "Approved" {}
          "admin").result
        = .ok { orderId := "o2", previousStatus := c2Order.status, newStatus := "Approved",
                timestamp := 1 } ∧
      (AdminOrderService.updateOrderStatus 1 c2Orders ProductStore.empty "o2" "Approved" {}
          "admin").orders "o2" = some o' ∧
      o'.statusHistory = c2Order.statusHistory
        ++ [adminStatusHistoryEntry 1 "Approved" c2Order.status {} "admin"] ∧
      (adminStatusHistoryEntry 1 "Approved" c2Order.status {} "admin").status = "Approved" ∧
      (adminStatusHistoryEntry 1 "Approved" c2Order.status {} "admin").timestamp = 1 ∧
      (adminStatusHistoryEntry 1 "Approved" c2Order.status {} "admin").note
        = jsOr ({} : UpdateInfo).note ("Order " ++ "Approved".toLower ++ " by admin") ∧
      (adminStatusHistoryEntry 1 "Approved" c2Order.status {} "admin").updatedBy
        = some "admin" ∧
      o'.statusHistory.length = c2Order.statusHistory.length + 1 :=
  updateOrderStatus_appends_one_history_entry 1 c2Orders ProductStore.empty "o2" c2Order
    "Approved" {} "admin" (by decide) (by decide)

/-- Counterexample to C3 as stated: cancelling an order whose two line items
reference the same product (quantities 2 and 3, stock 10) leaves stock 13 —
every batch read saw the pre-batch stock and the later buffered write won —
so the first line item's per-item increment (10 + 2 = 12) does not hold. -/
theorem restoreInventory_duplicate_item_counterexample :
    stockOf c3DupOutcome.products "p" = 13 ∧
    ¬ (∀ item ∈ c3DupOrder.items,
        stockOf c3DupOutcome.products item.productId
          = stockOf c3Products item.productId + item.quantity) := by
  constructor
  · decide
  · decide

/-- C3 (amended): transitioning an existing order to Declined or Cancelled
restores inventory per line item — each referenced product's stock grows by
exactly that item's quantity — provided every referenced product document
exists and the order's line items reference pairwise-distinct products. -/
theorem updateOrderStatus_cancel_restores_stock (now : Nat) (orders : OrderStore)
    (products : ProductStore) (orderId : String) (o : Order) (newStatus : String)
    (updateInfo : UpdateInfo) (adminUserId : String)
    (hfound : orders orderId = some o)
    (hstatus : newStatus = ORDER_STATUSES.DECLINED ∨ newStatus = ORDER_STATUSES.CANCELLED)
    (hnd : (o.items.map LineItem.productId).Nodup)
    (hex : ∀ item ∈ o.items, (products item.productId).isSome) :
    ∀ item ∈ o.items,
      stockOf (AdminOrderService.updateOrderStatus now orders products orderId newStatus
          updateInfo adminUserId).products item.productId
        = stockOf products item.productId + item.quantity := by
  intro item hmem
  rw [updateOrderStatus_products_restore now orders products orderId o newStatus updateInfo
    adminUserId hfound hstatus]
  exact restoreInventory_stock now o.items products hnd hex item hmem

/-- Witness for the amended C3: cancelling a one-item order (quantity 2,
stock 5) raises the product's stock to 7. -/
theorem updateOrderStatus_cancel_restores_stock_witness :
    stockOf (AdminOrderService.updateOrderStatus 1 c3wOrders c3wProducts "ow" "Cancelled" {}
        "admin").products "a" = stockOf c3wProducts "a" + 2 :=
  updateOrderStatus_cancel_restores_stock 1 c3wOrders c3wProducts "ow" c3wOrder "Cancelled"
    {} "admin" (by decide) (Or.inr (by decide)) (by decide) (by decide)
    { productId := "a", quantity := 2 } (by decide)

/-- C4: a status update issued through the Orders page's own handler — the
Declined and Cancelled buttons included — writes only the `status` and
`statusHistory` fields of the order document (spelled out below for the
status-specific timestamp/actor fields, the tracking descriptor and the
refund amount) and leaves every product document untouched: this UI path
performs no inventory restoration. -/
theorem ordersPage_updateOrderStatus_frame (now : Nat) (orders : OrderStore)
    (products : ProductStore) (confirmed : Bool) (orderId newStatus : String)
    (additionalInfo : AdditionalInfo) (o : Order)
    (hfound : orders orderId = some o)
    (hconf : confirmed = true) :
    (OrdersPage.updateOrderStatus now orders products confirmed orderId newStatus
        additionalInfo).products = products ∧
    (OrdersPage.updateOrderStatus now orders products confirmed orderId newStatus
        additionalInfo).err = none ∧
    (OrdersPage.updateOrderStatus now orders products confirmed orderId newStatus
        additionalInfo).orders
      = orders.set orderId { o with
          status := newStatus
          statusHistory := o.statusHistory ++
            [{ status := newStatus, timestamp := now
               note := jsOr additionalInfo.note
                 ("Order " ++ newStatus.toLower ++ " by admin") }] } ∧
    ({ o with
        status := newStatus
        statusHistory := o.statusHistory ++
          [{ status := newStatus, timestamp := now
             note := jsOr additionalInfo.note
               ("Order " ++ newStatus.toLower ++ " by admin") }] } : Order).approvedAt
      = o.approvedAt ∧
    ({ o with
        status := newStatus
        statusHistory := o.statusHistory ++
          [{ status := newStatus, timestamp := now
             note := jsOr additionalInfo.note
               ("Order " ++ newStatus.toLower ++ " by admin") }] } : Order).declinedAt
      = o.declinedAt ∧
    ({ o with
        status := newStatus
        statusHistory := o.statusHistory ++
          [{ status := newStatus, timestamp := now
             note := jsOr additionalInfo.note
               ("Order " ++ newStatus.toLower ++ " by admin") }] } : Order).declinedBy
      = o.declinedBy ∧
    ({ o with
        status := newStatus
        statusHistory := o.statusHistory ++
          [{ status := newStatus, timestamp := now
             note := jsOr additionalInfo.note
               ("Order " ++ newStatus.toLower ++ " by admin") }] } : Order).refundAmount
      = o.refundAmount ∧
    ({ o with
        status := newStatus
        statusHistory := o.statusHistory ++
          [{ status := newStatus, timestamp := now
             note := jsOr additionalInfo.note
               ("Order " ++ newStatus.toLower ++ " by admin") }] } : Order).tracking
      = o.tracking := by
  subst hconf
  simp only [OrdersPage.updateOrderStatus, hfound]
  rw [if_neg (fun hc => Bool.noConfusion hc.2)]
  refine ⟨?_, ?_, ?_, ?_, ?_, ?_, ?_, ?_⟩ <;> trivial

/-- Witness for C4: declining the frame-check order leaves its pre-set
approvedAt, tracking and the product store unchanged. -/
theorem ordersPage_updateOrderStatus_frame_witness :
    (OrdersPage.updateOrderStatus 2 c4Orders c3wProducts true "o4" "Declined"
        {}).products = c3wProducts ∧
    (OrdersPage.updateOrderStatus 2 c4Orders c3wProducts true "o4" "Declined"
        {}).err = none ∧
    (OrdersPage.updateOrderStatus 2 c4Orders c3wProducts true "o4" "Declined"
        {}).orders
      = c4Orders.set "o4" { c4Order with
          status := "Declined"
          statusHistory := c4Order.statusHistory ++
            [{ status := "Declined", timestamp := 2
               note := jsOr ({} : AdditionalInfo).note
                 ("Order " ++ "Declined".toLower ++ " by admin") }] } ∧
    ({ c4Order with
        status := "Declined"
        statusHistory := c4Order.statusHistory ++
          [{ status := "Declined", timestamp := 2
             note := jsOr ({} : AdditionalInfo).note
               ("Order " ++ "Declined".toLower ++ " by admin") }] } : Order).approvedAt
      = c4Order.approvedAt ∧
    ({ c4Order with
        status := "Declined"
        statusHistory := c4Order.statusHistory ++
          [{ status := "Declined", timestamp := 2
             note := jsOr ({} : AdditionalInfo).note
               ("Order " ++ "Declined".toLower ++ " by admin") }] } : Order).declinedAt
      = c4Order.declinedAt ∧
    ({ c4Order with
        status := "Declined"
        statusHistory := c4Order.statusHistory ++
          [{ status := "Declined", timestamp := 2
             note := jsOr ({} : AdditionalInfo).note
               ("Order " ++ "Declined".toLower ++ " by admin") }] } : Order).declinedBy
      = c4Order.declinedBy ∧
    ({ c4Order with
        status := "Declined"
        statusHistory := c4Order.statusHistory ++
          [{ status := "Declined", timestamp := 2
             note := jsOr ({} : AdditionalInfo).note
               ("Order " ++ "Declined".toLower ++ " by admin") }] } : Order).refundAmount
      = c4Order.refundAmount ∧
    ({ c4Order with
        status := "Declined"
        statusHistory := c4Order.statusHistory ++
          [{ status := "Declined", timestamp := 2
             note := jsOr ({} : AdditionalInfo).note
               ("Order " ++ "Declined".toLower ++ " by admin") }] } : Order).tracking
      = c4Order.tracking :=
  ordersPage_updateOrderStatus_frame 2 c4Orders c3wProducts true "o4" "Declined" {} c4Order
    (by decide) rfl

/-- Counterexample to C5 as stated: running the scenario —
checkout-created Placed order, transition to Approved, transition to Packed,
attach DHL shipping with tracking number X123 — does end Shipped with
tracking code X123, but the status history has 4 entries, not 3: checkout
already seeds one Placed entry and each of the three calls appends one. -/
theorem checkout_scenario_history_counterexample :
    (c5Step3.orders "o5").map (fun o => o.statusHistory.length) = some 4 ∧
    ¬ ((c5Step3.orders "o5").map Order.status = some "Shipped" ∧
      (c5Step3.orders "o5").map (fun o => o.tracking.bind Tracking.code)
        = some (some "X123") ∧
      (c5Step3.orders "o5").map (fun o => o.statusHistory.length) = some 3) := by
  constructor
  · decide
  · intro h
    have h4 : (c5Step3.orders "o5").map (fun o => o.statusHistory.length) = some 4 := by
      decide
    rw [h4] at h
    exact absurd h.2.2 (by decide)

/-- C5 (amended): the scenario's final state is status Shipped with tracking
code X123 and a status history of length 4 (the checkout-seeded Placed entry
plus one appended entry per call). -/
theorem checkout_scenario_final_state :
    (c5Step3.orders "o5").map Order.status = some "Shipped" ∧
    (c5Step3.orders "o5").map (fun o => o.tracking.bind Tracking.code)
      = some (some "X123") ∧
    (c5Step3.orders "o5").map (fun o => o.statusHistory.length) = some 4 := by
  refine ⟨?_, ?_, ?_⟩ <;> decide

/-- C6: `bulkOperation` on `update_status` with a non-enumerated target
status, over one existing and one missing order, reports successCount 0 and
failureCount 2 with distinct per-item reasons — the invalid-status message
for the existing order, the not-found message for the missing one — and the
failure on the first does not stop processing of the second; no order is
written. -/
theorem bulkOperation_invalid_status_and_missing_order (now : Nat) (orders : OrderStore)
    (idA idB : String) (a : Order) (operationData : BulkOperationData)
    (adminUserId : String)
    (hA : orders idA = some a) (hB : orders idB = none)
    (hS : ORDER_STATUSES.values.contains operationData.status = false) :
    (AdminOrderService.bulkOperation now orders "update_status" [idA, idB] operationData
        adminUserId).result
      = .ok { operation := "update_status", totalOrders := 2, successCount := 0
              failureCount := 2
              results :=
                [{ orderId := idA, success := false
                   error := some ("Invalid status: " ++ operationData.status) },
                 { orderId := idB, success := false, error := some "Order not found" }] } ∧
    ("Invalid status: " ++ operationData.status) ≠ "Order not found" ∧
    (AdminOrderService.bulkOperation now orders "update_status" [idA, idB] operationData
        adminUserId).orders = orders := by
  have hS' : operationData.status ∉ ORDER_STATUSES.values := by simpa using hS
  refine ⟨?_, ?_, ?_⟩
  · rw [AdminOrderService.bulkOperation, if_neg (by simp), if_neg (by simp)]
    simp [bulkStep, hA, hB, hS']
  · intro h
    have hlen := congrArg String.length h
    rw [String.length_append] at hlen
    have h16 : "Invalid status: ".length = 16 := rfl
    have h15 : "Order not found".length = 15 := rfl
    rw [h16, h15] at hlen
    omega
  · rw [AdminOrderService.bulkOperation, if_neg (by simp), if_neg (by simp)]
    simp [bulkStep, hA, hB, hS']

/-- Witness for C6: target status INVALID over existing `a1` and missing
`b1`. -/
theorem bulkOperation_invalid_status_and_missing_order_witness :
    (AdminOrderService.bulkOperation 1 c6Orders "update_status" ["a1", "b1"]
        { status := "INVALID" } "admin").result
      = .ok { operation := "update_status", totalOrders := 2, successCount := 0
              failureCount := 2
              results :=
                [{ orderId := "a1", success := false
                   error := some ("Invalid status: " ++
                     ({ status := "INVALID" } : BulkOperationData).status) },
                 { orderId := "b1", success := false, error := some "Order not found" }] } ∧
    ("Invalid status: " ++ ({ status := "INVALID" } : BulkOperationData).status)
      ≠ "Order not found" ∧
    (AdminOrderService.bulkOperation 1 c6Orders "update_status" ["a1", "b1"]
        { status := "INVALID" } "admin").orders = c6Orders :=
  bulkOperation_invalid_status_and_missing_order 1 c6Orders "a1" "b1"
    { status := "Placed" } { status := "INVALID" } "admin" (by decide) (by decide) (by decide)

/-- C7: `bulkOperation` rejects an empty order-id list with the
no-ids validation message and a list of more than 50 ids with the
50-cap limit message, in both cases before any read, leaving every order
document unchanged (zero writes). -/
theorem bulkOperation_size_validation (now : Nat) (orders : OrderStore)
    (operation : String) (orderIds : List String) (operationData : BulkOperationData)
    (adminUserId : String)
    (h : 50 < orderIds.length ∨ orderIds = []) :
    (AdminOrderService.bulkOperation now orders operation orderIds operationData
        adminUserId).orders = orders ∧
    (AdminOrderService.bulkOperation now orders operation orderIds operationData
        adminUserId).result
      = .error (if orderIds.length = 0 then "No order IDs provided for bulk operation"
          else
            "Bulk operations are limited to 50 orders at a time for performance reasons") := by
  rcases h with h | h
  · have h0 : ¬ orderIds.length = 0 := by omega
    rw [AdminOrderService.bulkOperation, if_neg h0, if_pos h]
    exact ⟨rfl, by rw [if_neg h0]⟩
  · subst h
    rw [AdminOrderService.bulkOperation,
      if_pos (show ([] : List String).length = 0 from rfl)]
    exact ⟨rfl, by rw [if_pos (show ([] : List String).length = 0 from rfl)]⟩

/-- Witness for C7: 51 identical ids trip the cap with no writes. -/
theorem bulkOperation_size_validation_witness :
    (AdminOrderService.bulkOperation 1 OrderStore.empty "update_status"
        (List.replicate 51 "x") {} "admin").orders = OrderStore.empty ∧
    (AdminOrderService.bulkOperation 1 OrderStore.empty "update_status"
        (List.replicate 51 "x") {} "admin").result
      = .error (if (List.replicate 51 "x").length = 0
          then "No order IDs provided for bulk operation"
          else
            "Bulk operations are limited to 50 orders at a time for performance reasons") :=
  bulkOperation_size_validation 1 OrderStore.empty "update_status" (List.replicate 51 "x")
    {} "admin" (Or.inl (by decide))

/-- C8: `updateShippingInfo` with an empty tracking number or an empty
carrier fails with the corresponding required-field message before any read,
and causes no state change: the order store — hence the order's status,
tracking descriptor and status history — is untouched. -/
theorem updateShippingInfo_rejects_empty_fields (now : Nat) (orders : OrderStore)
    (orderId : String) (shippingInfo : ShippingInfoInput) (adminUserId : String)
    (h : shippingInfo.trackingNumber = "" ∨ shippingInfo.carrier = "") :
    (AdminOrderService.updateShippingInfo now orders orderId shippingInfo
        adminUserId).orders = orders ∧
    (AdminOrderService.updateShippingInfo now orders orderId shippingInfo
        adminUserId).result
      = .error (if shippingInfo.trackingNumber = ""
          then "Tracking number is required for shipping updates"
          else "Shipping carrier is required for shipping updates") := by
  by_cases ht : shippingInfo.trackingNumber = ""
  · rw [AdminOrderService.updateShippingInfo, if_pos ht]
    exact ⟨rfl, by rw [if_pos ht]⟩
  · have hc : shippingInfo.carrier = "" := h.resolve_left ht
    rw [AdminOrderService.updateShippingInfo, if_neg ht, if_pos hc]
    exact ⟨rfl, by rw [if_neg ht]⟩

/-- Witness for C8: a DHL attachment without a tracking number is rejected
with the tracking-number message and no write. -/
theorem updateShippingInfo_rejects_empty_fields_witness :
    (AdminOrderService.updateShippingInfo 1 OrderStore.empty "o1" { carrier := "DHL" }
        "admin").orders = OrderStore.empty ∧
    (AdminOrderService.updateShippingInfo 1 OrderStore.empty "o1" { carrier := "DHL" }
        "admin").result
      = .error (if ({ carrier := "DHL" } : ShippingInfoInput).trackingNumber = ""
          then "Tracking number is required for shipping updates"
          else "Shipping carrier is required for shipping updates") :=
  updateShippingInfo_rejects_empty_fields 1 OrderStore.empty "o1" { carrier := "DHL" }
    "admin" (Or.inl rfl)

/-- Counterexample to C9 as stated: for an order with subtotal 100, tax 0,
discount 200, a stored shipping cost of 50 and absent totals, the code
reconstructs −100 (its `shipping` term is the local constant 0, the stored
shipping cost is ignored, and `importDuty` is added), while the spec formula
`subtotal + tax + shippingCost − discount` gives −50; the reconstructed value
is also negative, violating the claimed non-negativity. -/
theorem fetchOrders_total_counterexample :
    (MyAccount.ensureTotalAmount c9Order).totalAmount = some (-100 : Rat) ∧
    specReconstructedTotal c9Order = (-50 : Rat) ∧
    ¬ ((MyAccount.ensureTotalAmount c9Order).totalAmount
        = some (specReconstructedTotal c9Order) ∧
      (0 : Rat) ≤ -100) := by
  have h1 : (MyAccount.ensureTotalAmount c9Order).totalAmount = some (-100 : Rat) := by
    norm_num [MyAccount.ensureTotalAmount, c9Order, jsFalsyNum]
  have h2 : specReconstructedTotal c9Order = (-50 : Rat) := by
    norm_num [specReconstructedTotal, c9Order]
  refine ⟨h1, h2, ?_⟩
  intro h
  rw [h1, h2] at h
  norm_num at h

/-- C9 (amended): when both stored total fields are JS-falsy, the presented
total is reconstructed as `subtotal + tax + importDuty − discount` — the
shipping term is hardcoded to 0 and any stored shipping cost is ignored —
and the result is non-negative exactly under the additional hypothesis that
the discount does not exceed `subtotal + tax + importDuty` (the code does not
clamp). For subtotal 100, tax 18, discount 0 this yields 118. -/
theorem fetchOrders_total_reconstruction (o : Order)
    (h1 : jsFalsyNum o.totalAmount = true) (h2 : jsFalsyNum o.total = true) :
    (MyAccount.ensureTotalAmount o).totalAmount
      = some (o.subtotal.getD 0 + o.tax.getD 0 + o.importDuty.getD 0 - o.discount.getD 0) ∧
    (o.discount.getD 0 ≤ o.subtotal.getD 0 + o.tax.getD 0 + o.importDuty.getD 0 →
      (0 : Rat) ≤ o.subtotal.getD 0 + o.tax.getD 0 + o.importDuty.getD 0
        - o.discount.getD 0) := by
  constructor
  · have harith : o.subtotal.getD 0 + o.tax.getD 0 + 0 + o.importDuty.getD 0
        - o.discount.getD 0
        = o.subtotal.getD 0 + o.tax.getD 0 + o.importDuty.getD 0 - o.discount.getD 0 := by
      ring
    simp [MyAccount.ensureTotalAmount, h1, h2, harith]
  · intro h
    linarith

/-- Witness for the amended C9: the spec's round-trip example order
reconstructs to exactly 118. -/
theorem fetchOrders_total_reconstruction_witness :
    (MyAccount.ensureTotalAmount c9ExampleOrder).totalAmount = some (118 : Rat) ∧
    (0 : Rat) ≤ 118 := by
  have h := fetchOrders_total_reconstruction c9ExampleOrder (by decide) (by decide)
  refine ⟨?_, by norm_num⟩
  rw [h.1]
  norm_num [c9ExampleOrder]

/-- C10: during inventory restoration, a line item whose product document no
longer exists is skipped silently — the run equals the run without that item,
so the other items' stock increments are still committed — and no write is
issued for the missing product, which stays absent. -/
theorem restoreInventory_skips_missing_product (now : Nat) (products : ProductStore)
    (pre post : List LineItem) (bad : LineItem)
    (hmiss : products bad.productId = none) :
    AdminOrderService.restoreInventory now (pre ++ bad :: post) products
      = AdminOrderService.restoreInventory now (pre ++ post) products ∧
    AdminOrderService.restoreInventory now (pre ++ bad :: post) products bad.productId
      = none := by
  have hentries : restoreEntries (pre ++ bad :: post) products
      = restoreEntries (pre ++ post) products := by
    simp [restoreEntries, List.filterMap_append, List.filterMap_cons, hmiss]
  constructor
  · rw [AdminOrderService.restoreInventory, AdminOrderService.restoreInventory, hentries]
  · exact restoreInventory_missing_unchanged now _ products bad.productId hmiss

/-- Witness for C10: with product `b` missing, restoring `[a-item, b-item]`
equals restoring `[a-item]` alone, and `b` stays absent. -/
theorem restoreInventory_skips_missing_product_witness :
    AdminOrderService.restoreInventory 1 [c10Good, c10Bad] c10Products
      = AdminOrderService.restoreInventory 1 [c10Good] c10Products ∧
    AdminOrderService.restoreInventory 1 [c10Good, c10Bad] c10Products "b" = none :=
  restoreInventory_skips_missing_product 1 c10Products [c10Good] [] c10Bad (by decide)
